import Mathlib

/-!
Shallow embedding of the data-acquisition pipeline of `src/files.rs`
(crate `inep-ces-rs`).

Modelling conventions:

* Rust `u16`/`usize` values are modelled as `Nat`; no arithmetic in the
  embedded code can overflow a `u16` in a way the claims depend on, and the
  only arithmetic performed is string formatting of the year.
* Raw bytes are `Fin 256`.
* A Rust panic (`panic!`, `.unwrap()`, `.expect(..)`) is modelled as an
  `Except.error` carrying a constructor that names the panic site.
* The external `md5` crate is modelled by an explicit parameter
  `md5Hex : List Byte → String` (the digest rendered `format!("{:x}", ..)`);
  every theorem quantifies over it, so nothing is assumed about the hash.
* The external `zip` crate is modelled by giving the pipeline the parsed
  archive directly: `ZipBytes` is either a corrupt buffer (on which
  `ZipArchive::new` errors) or a list of named entries in enumeration order
  (`file_names` enumerates names in that same order, and `by_name` returns
  the first entry carrying the requested name).
* The filesystem and the network are modelled by an explicit `World` state
  threaded through the pipeline: a list of `(path, contents)` pairs plus
  effect counters, and a function `net : Nat → Except Unit ZipBytes` giving
  the response of the origin server for each year.  The OS resolves the
  relative paths `./input/f` and `input/f` to the same file, which the model
  captures by keying the file store with `normPath`.
* `tokio` concurrency (`JoinSet`, `spawn`, `spawn_blocking`) is modelled by
  executing the spawned per-year tasks in spawn order — one admissible
  schedule of the real program.  `JoinSet::join_next` then observes task
  results in that completion order, and the `.unwrap()` in the join loop of
  `ensure_all_data` turns the first panicked task into a panic of the
  orchestrator itself (dropping the `JoinSet`, which aborts the tasks not
  yet run in this schedule).
-/

/-! ### Bytes and substring search -/

/-- Bytes of the archive entries, as in Rust `u8`. -/
abbrev Byte := Fin 256

/-- Substring containment on character lists: `containsSeq hay needle` is
true iff `needle` occurs contiguously inside `hay`.  This models Rust
`str::contains(&str)` (a case-sensitive substring test). -/
def containsSeq : List Char → List Char → Bool
  | [], needle => needle.isEmpty
  | h :: t, needle => needle.isPrefixOf (h :: t) || containsSeq t needle

/-- Rust `str::contains` on `String`s. -/
def containsStr (s pat : String) : Bool :=
  containsSeq s.data pat.data

/-- Sanity check of the model: `containsSeq` decides exactly the
`List.IsInfix` relation. -/
theorem containsSeq_iff_infix (hay needle : List Char) :
    containsSeq hay needle = true ↔ needle <:+: hay := by
  induction hay with
  | nil =>
    simp [containsSeq, List.isEmpty_iff, List.infix_nil]
  | cons h t ih =>
    simp only [containsSeq, Bool.or_eq_true, List.isPrefixOf_iff_prefix, ih]
    constructor
    · rintro (hp | hi)
      · exact hp.isInfix
      · exact hi.trans (List.suffix_cons h t).isInfix
    · intro hinf
      rcases List.infix_cons_iff.mp hinf with hp | hi
      · exact Or.inl hp
      · exact Or.inr hi

/-! ### Static data of `files.rs` -/

/-- Model of the constant `MICRODATA_PREFIX` of `files.rs` line 9. -/
def MICRODATA_TAG : String := "MICRODADOS_CADASTRO"

/-- Model of `enum Microdata` (`files.rs` lines 172-174). -/
inductive Microdata
  | Cursos
deriving DecidableEq

/-- Model of `Microdata::name` (`files.rs` lines 177-181). -/
def Microdata.name : Microdata → String
  | .Cursos => "CURSOS"

/-- Model of `Microdata::original_md5` (`files.rs` lines 183-202): the
static expected-digest table.  The Rust `match` on the `u16` year is an
equality decision chain, written here as nested `if`s. -/
def Microdata.original_md5 (k : Microdata) (year : Nat) : Option String :=
  match k with
  | .Cursos =>
    if year = 2009 then some "677421fb8ad9442370175cbadae05b77"
    else if year = 2010 then some "8ea106ef7dc41a27a43b9f246cfd3ffd"
    else if year = 2011 then some "f626dd6d17e8f31f78ddf90f680ace48"
    else if year = 2012 then some "f896c4a4e2b10adcf846d91486ab0ce8"
    else if year = 2013 then some "2bbfbe1a9afe1fe5d0d7384901ae3b7e"
    else if year = 2014 then some "bf70eb93a2a5cce0e0a48295c4834c20"
    else if year = 2015 then some "b5bd1b6b10b4f66f359deed4ac48cb80"
    else if year = 2016 then some "a9475f5f6815a5befb8bc91b8e2c7b1c"
    else if year = 2017 then some "af97168b2d83b0e4b6c1572e619c183b"
    else if year = 2018 then some "b852881daa9328e4ff3f3a2c6115ba51"
    else if year = 2019 then some "f80ea1eddafae4780728e6fb26aa549f"
    else if year = 2020 then some "a84c1efeedd8bcec4848ec8217b92b98"
    else if year = 2021 then some "05d78ff911cea316cd65f08b0e93e83d"
    else none

/-- Model of `struct Ces` (`files.rs` lines 11-14): a per-year value object
whose single (private, immutable) attribute is the year. -/
structure Ces where
  year : Nat
deriving DecidableEq

/-- Model of `Ces::new` (`files.rs` lines 28-34).  The `panic!` on a year
before 2009 is modelled as an `Except.error` carrying the panic message. -/
def Ces.new (year : Nat) : Except String Ces :=
  if year < 2009 then
    .error "Years before 2009 are not suppported in this software yet."
  else
    .ok { year := year }

/-- Model of `Ces::all` (`files.rs` lines 18-20): `(2009..2022)` mapped
through `Ces::new` and collected.  A panic inside the iterator would abort
the collection, hence the monadic `mapM`. -/
def Ces.all : Except String (List Ces) :=
  (List.range' 2009 13).mapM Ces.new

/-- Model of `Ces::url` (`files.rs` lines 108-113): the download URL is the
fixed template with the year interpolated. -/
def Ces.url (c : Ces) : String :=
  "https://download.inep.gov.br/microdados/microdados_censo_da_educacao_superior_"
    ++ toString c.year ++ ".zip"

/-- Model of `Ces::path` (`files.rs` lines 89-93): the deterministic output
path `input/cursos.{year}.csv`, a pure function of the table kind and the
year. -/
def Ces.path (c : Ces) (kind : Microdata) : String :=
  match kind with
  | .Cursos => "input/" ++ ("cursos." ++ (toString c.year ++ ".csv"))

/-! ### Archive model and `extract_cursos_microdata` -/

/-- A single named member of the ZIP archive, in the order the `zip` crate
enumerates members. -/
structure ZipEntry where
  name : String
  bytes : List Byte
deriving DecidableEq

/-- The downloaded byte buffer as seen by `ZipArchive::new`: either a
malformed buffer (the `?` on `ZipArchive::new` propagates its error) or a
well-formed archive given by its entries in enumeration order. -/
inductive ZipBytes
  | corrupt
  | archive (entries : List ZipEntry)
deriving DecidableEq

/-- Failure modes of `Ces::extract_cursos_microdata` (`files.rs` lines
125-156).  `wrongMd5` and `notFound` are the two `anyhow::bail!` sites,
`corruptArchive` is the propagated `ZipArchive::new` error, and the two
`Unwrap`/`Expect` constructors model the panics at the `.unwrap()` on
`original_md5` and the `.expect(..)` on `by_name`. -/
inductive ExtractError
  | corruptArchive
  | notFound
  | wrongMd5 (year : Nat)
  | noDigestUnwrap
  | byNameExpect
deriving DecidableEq

/-- Model of `iso_8559_1_to_utf8` (`files.rs` lines 168-170): each byte is
cast to the `char` with the same numeric value and the characters are
collected into a string. -/
def iso_8559_1_to_utf8 (bytes : List Byte) : String :=
  String.mk (bytes.map (fun c => Char.ofNat c.val))

/-- The selection predicate of the two `.filter` calls in
`extract_cursos_microdata`: the entry name must contain the
`MICRODADOS_CADASTRO` family marker and the `CURSOS` table token, both
case-sensitive substring tests. -/
def keepName (n : String) : Bool :=
  containsStr n MICRODATA_TAG && containsStr n (Microdata.name Microdata.Cursos)

/-- The `names` vector computed in `Ces::extract_cursos_microdata`
(`files.rs` lines 128-133): entry names passing both `.filter` calls, in
enumeration order. -/
def cursosNames (entries : List ZipEntry) : List String :=
  ((entries.map ZipEntry.name).filter
      (fun n => containsStr n MICRODATA_TAG)).filter
    (fun n => containsStr n (Microdata.name Microdata.Cursos))

/-- Model of `Ces::extract_cursos_microdata` (`files.rs` lines 125-156),
parameterised by the digest function `md5Hex` of the external `md5` crate.

The source collects the entry names passing both filters, then loops over
them; the loop body either returns (digest match) or bails (mismatch), so
only the first collected name is ever processed.  `archive.by_name(&name)`
is the first entry with that name (`List.find?`); its `.expect` cannot fire
because the name comes from `file_names`.  The digest is computed on the
raw entry bytes, and only after the comparison succeeds are the bytes
normalised by `iso_8559_1_to_utf8`. -/
def Ces.extract_cursos_microdata (md5Hex : List Byte → String) (c : Ces)
    (zip : ZipBytes) : Except ExtractError String :=
  match zip with
  | .corrupt => .error .corruptArchive
  | .archive entries =>
    match cursosNames entries with
    | [] => .error .notFound
    | name :: _ =>
      match entries.find? (fun en => en.name == name) with
      | none => .error .byNameExpect
      | some zip_file =>
        let bytes := zip_file.bytes
        let downloaded_md5 := md5Hex bytes
        match Microdata.original_md5 Microdata.Cursos c.year with
        | none => .error .noDigestUnwrap
        | some correct_md5 =>
          if downloaded_md5 ≠ correct_md5 then .error (.wrongMd5 c.year)
          else .ok (iso_8559_1_to_utf8 bytes)


/-! ### Filesystem, network and the per-year pipeline -/

/-- OS-level identity of the relative paths used by the program: the write
site addresses the output as `./input/<file>` (`Path::new("./input")` joined
with the file name) while the existence check addresses it as
`input/<file>`; the operating system resolves both to the same file.  The
model therefore keys the file store by the path with a leading `./`
stripped. -/
def normPath (p : String) : String :=
  match p.data with
  | '.' :: '/' :: rest => String.mk rest
  | _ => p

/-- Explicit world state threaded through the pipeline: the files on disk
(keyed by `normPath`-normalised path) plus counters of the outbound network
requests and of the file writes performed. -/
structure World where
  files : List (String × String)
  fetchCount : Nat
  writeCount : Nat
deriving DecidableEq

/-- Filesystem existence query (`Path::try_exists`). -/
def fsExists (w : World) (p : String) : Bool :=
  w.files.any (fun kv => kv.1 == normPath p)

/-- Filesystem write (`tokio::fs::write`); `create_dir_all` has no
observable effect in this model since directories are not modelled. -/
def fsWrite (w : World) (p s : String) : World :=
  { w with
    files := (normPath p, s) :: w.files
    writeCount := w.writeCount + 1 }

/-- Failure modes of one year's pipeline as surfaced by
`Ces::download_data` / `Ces::ensure_data`.  An `extract_cursos_microdata`
failure reaches `download_data` as a `JoinError`: the closure passed to
`spawn_blocking` calls `.unwrap()` on it, panicking the blocking task, and
the `?` on its join handle propagates that as an error. -/
inductive PipelineError
  | fetchFailed
  | extractFailure (e : ExtractError)
deriving DecidableEq

/-- Model of `Ces::zip` (`files.rs` lines 115-123): one outbound request;
the response (or transport failure) is given by the `net` parameter. -/
def Ces.zip (net : Nat → Except Unit ZipBytes) (c : Ces) (w : World) :
    Except Unit ZipBytes × World :=
  (net c.year, { w with fetchCount := w.fetchCount + 1 })

/-- Model of `Ces::save_cursos` (`files.rs` lines 158-163): write the
normalised text to `Path::new("./input")` joined with
`cursos.{year}.csv`. -/
def Ces.save_cursos (c : Ces) (s : String) (w : World) : World :=
  fsWrite w ("./input" ++ ("/" ++ ("cursos." ++ (toString c.year ++ ".csv")))) s

/-- Model of `Ces::download_data` (`files.rs` lines 95-106): fetch, then
extract (off the async scheduler via `spawn_blocking`, whose panic on an
extraction error comes back through the join handle), then persist. -/
def Ces.download_data (md5Hex : List Byte → String)
    (net : Nat → Except Unit ZipBytes) (c : Ces) (w : World) :
    Except PipelineError Unit × World :=
  match c.zip net w with
  | (.error _, w1) => (.error .fetchFailed, w1)
  | (.ok zipBuf, w1) =>
    match c.extract_cursos_microdata md5Hex zipBuf with
    | .error e => (.error (.extractFailure e), w1)
    | .ok cursos => (.ok (), c.save_cursos cursos w1)

/-- Model of `Ces::already_downloaded` (`files.rs` lines 84-87): a pure
filesystem existence query on the deterministic output path. -/
def Ces.already_downloaded (c : Ces) (w : World) : Bool :=
  fsExists w (c.path Microdata.Cursos)

/-- Model of `Ces::ensure_data` (`files.rs` lines 74-82): short-circuit to
success when the output file already exists, otherwise run the download
pipeline. -/
def Ces.ensure_data (md5Hex : List Byte → String)
    (net : Nat → Except Unit ZipBytes) (c : Ces) (w : World) :
    Except PipelineError Unit × World :=
  if c.already_downloaded w then (.ok (), w)
  else c.download_data md5Hex net w

/-! ### Fleet orchestrator -/

/-- A panic of one spawned per-year task: either the `panic!` inside
`Ces::new` or the `.unwrap()` on the `ensure_data` result, both inside the
closure spawned per year by `ensure_all_data`. -/
inductive TaskFailure
  | constructionFailure (msg : String)
  | pipelineFailure (e : PipelineError)
deriving DecidableEq

/-- The closure spawned per year by `Ces::ensure_all_data` (`files.rs`
lines 55-57): `Ces::new(year).ensure_data().await.unwrap()`.  Any failure
panics the task. -/
def yearTask (md5Hex : List Byte → String)
    (net : Nat → Except Unit ZipBytes) (year : Nat) (w : World) :
    Except TaskFailure Unit × World :=
  match Ces.new year with
  | .error m => (.error (.constructionFailure m), w)
  | .ok c =>
    match c.ensure_data md5Hex net w with
    | (.error e, w1) => (.error (.pipelineFailure e), w1)
    | (.ok _, w1) => (.ok (), w1)

/-- How `Ces::ensure_all_data` ends in the modelled schedule: either every
task finished and the join loop observed only successes, or the `.unwrap()`
in the join loop re-raised the first observed task panic, aborting the
orchestrator (and, with it, the tasks not yet run in this schedule). -/
inductive FleetOutcome
  | allOk
  | panicked (year : Nat) (e : TaskFailure)
deriving DecidableEq

/-- The join phase of `Ces::ensure_all_data` over an explicit list of
years, under the modelled schedule (tasks complete in spawn order).  The
first panicked task makes the orchestrator panic via `.unwrap()`; the
remaining years' tasks are never run in this schedule. -/
def ensure_all_data_over (md5Hex : List Byte → String)
    (net : Nat → Except Unit ZipBytes) (years : List Nat) (w : World) :
    FleetOutcome × World :=
  match years with
  | [] => (.allOk, w)
  | y :: rest =>
    match yearTask md5Hex net y w with
    | (.error e, w1) => (.panicked y e, w1)
    | (.ok _, w1) => ensure_all_data_over md5Hex net rest w1

/-- Model of `Ces::ensure_all_data` (`files.rs` lines 51-71): one task per
year in `2009..2022`, then the join loop. -/
def Ces.ensure_all_data (md5Hex : List Byte → String)
    (net : Nat → Except Unit ZipBytes) (w : World) : FleetOutcome × World :=
  ensure_all_data_over md5Hex net (List.range' 2009 13) w

/-! ### Decimal rendering of the year: `toString` on `Nat` is injective -/

/-- Character-level round trip: for byte-sized code points, `Char.ofNat`
is inverted by `Char.toNat`. -/
theorem char_toNat_ofNat (n : Nat) (h : n < 256) : (Char.ofNat n).toNat = n := by
  have hv : Nat.isValidChar n := Or.inl (by omega)
  simp only [Char.ofNat, hv, dif_pos, Char.ofNatAux, Char.toNat]
  rfl

/-- Reference form of core's fuelled `Nat.toDigitsCore` at base 10: the
decimal digit characters of `n`, most significant first. -/
def decDigits (n : Nat) : List Char :=
  if _h : n < 10 then [Nat.digitChar n]
  else
    have : n / 10 < n := Nat.div_lt_self (by omega) (by omega)
    decDigits (n / 10) ++ [Nat.digitChar (n % 10)]

theorem toDigitsCore_eq_decDigits :
    ∀ (fuel n : Nat) (ds : List Char), n < fuel →
      Nat.toDigitsCore 10 fuel n ds = decDigits n ++ ds := by
  intro fuel
  induction fuel with
  | zero => intro n ds h; omega
  | succ fuel ih =>
    intro n ds h
    by_cases hz : n / 10 = 0
    · have hn : n < 10 := by omega
      rw [decDigits]
      simp [Nat.toDigitsCore, hz, hn, Nat.mod_eq_of_lt hn]
    · have hn : ¬ n < 10 := by omega
      have hlt : n / 10 < fuel := by
        have := Nat.div_lt_self (n := n) (by omega) (by omega : (1:Nat) < 10)
        omega
      rw [decDigits]
      simp only [hn, dite_false]
      rw [Nat.toDigitsCore]
      simp only [hz, ite_false]
      rw [ih (n / 10) (Nat.digitChar (n % 10) :: ds) hlt]
      simp

theorem toDigits_eq_decDigits (n : Nat) :
    Nat.toDigits 10 n = decDigits n := by
  rw [Nat.toDigits, toDigitsCore_eq_decDigits (n + 1) n [] (Nat.lt_succ_self n)]
  simp

/-- Accumulator form of the decimal value of a digit string. -/
def decValAux (acc : Nat) : List Char → Nat
  | [] => acc
  | c :: cs => decValAux (acc * 10 + (c.toNat - 48)) cs

theorem decValAux_append (acc : Nat) (l1 l2 : List Char) :
    decValAux acc (l1 ++ l2) = decValAux (decValAux acc l1) l2 := by
  induction l1 generalizing acc with
  | nil => rfl
  | cons c cs ih =>
    show decValAux (acc * 10 + (c.toNat - 48)) (cs ++ l2)
        = decValAux (decValAux (acc * 10 + (c.toNat - 48)) cs) l2
    exact ih _

theorem digitChar_toNat (m : Nat) (h : m < 10) :
    (Nat.digitChar m).toNat = 48 + m := by
  interval_cases m <;> decide

theorem decValAux_decDigits (n : Nat) :
    ∀ acc : Nat, decValAux acc (decDigits n) =
      acc * 10 ^ (decDigits n).length + n := by
  induction n using Nat.strong_induction_on with
  | _ n ih =>
    intro acc
    by_cases h : n < 10
    · rw [decDigits, dif_pos h]
      have hstep : decValAux acc [Nat.digitChar n]
          = acc * 10 + ((Nat.digitChar n).toNat - 48) := rfl
      rw [hstep, digitChar_toNat n h]
      simp only [List.length_singleton, pow_one]
      omega
    · rw [decDigits, dif_neg h]
      rw [decValAux_append, List.length_append]
      have hdiv : n / 10 < n := Nat.div_lt_self (by omega) (by omega)
      rw [ih (n / 10) hdiv acc]
      have hstep : ∀ a : Nat, decValAux a [Nat.digitChar (n % 10)]
          = a * 10 + ((Nat.digitChar (n % 10)).toNat - 48) := fun _ => rfl
      rw [hstep, digitChar_toNat (n % 10) (Nat.mod_lt n (by omega))]
      have hqr : 10 * (n / 10) + n % 10 = n := Nat.div_add_mod n 10
      have hpow : 10 ^ ((decDigits (n / 10)).length + [Nat.digitChar (n % 10)].length)
          = 10 ^ (decDigits (n / 10)).length * 10 := by
        simp only [List.length_singleton, pow_succ]
      rw [hpow, ← mul_assoc]
      generalize acc * 10 ^ (decDigits (n / 10)).length = A
      omega

theorem decDigits_inj {m n : Nat} (h : decDigits m = decDigits n) : m = n := by
  have hm := decValAux_decDigits m 0
  have hn := decValAux_decDigits n 0
  rw [h] at hm
  omega

/-- Decimal rendering is injective: distinct numbers have distinct
`toString` images. -/
theorem natToString_inj {m n : Nat} (h : toString m = toString n) : m = n := by
  have h' : Nat.repr m = Nat.repr n := h
  have hd : (Nat.toDigits 10 m).asString = (Nat.toDigits 10 n).asString := h'
  rw [toDigits_eq_decDigits, toDigits_eq_decDigits] at hd
  exact decDigits_inj (List.asString_inj.mp hd)

/-! ### Characterisation of the selector -/

theorem cursosNames_cons (en : ZipEntry) (rest : List ZipEntry) :
    cursosNames (en :: rest) =
      if keepName en.name then en.name :: cursosNames rest
      else cursosNames rest := by
  by_cases h1 : containsStr en.name MICRODATA_TAG <;>
    by_cases h2 : containsStr en.name (Microdata.name Microdata.Cursos) <;>
      simp [cursosNames, keepName, List.filter, h1, h2]

theorem keep_of_mem_cursosNames {entries : List ZipEntry} {n : String}
    (h : n ∈ cursosNames entries) : keepName n = true := by
  have h2 := (List.mem_filter.mp h).2
  have h1 := (List.mem_filter.mp (List.mem_filter.mp h).1).2
  simp [keepName, h1, h2]

/-- The behaviour of `extract_cursos_microdata` on a well-formed archive is
determined by the first entry, in enumeration order, whose name passes the
two name filters: no match is the `bail!` on a missing entry, and on a
match the digest of that entry's raw bytes decides between the mismatch
`bail!` and the normalised text of those bytes. -/
theorem extract_cursos_eq (md5Hex : List Byte → String) (c : Ces)
    (entries : List ZipEntry) :
    c.extract_cursos_microdata md5Hex (.archive entries) =
      match entries.find? (fun en => keepName en.name) with
      | none => .error .notFound
      | some e =>
        match Microdata.original_md5 Microdata.Cursos c.year with
        | none => .error .noDigestUnwrap
        | some correct_md5 =>
          if md5Hex e.bytes ≠ correct_md5 then .error (.wrongMd5 c.year)
          else .ok (iso_8559_1_to_utf8 e.bytes) := by
  induction entries with
  | nil => rfl
  | cons en rest ih =>
    simp only [Ces.extract_cursos_microdata] at ih ⊢
    by_cases hk : keepName en.name
    · have hfind1 : List.find? (fun e => keepName e.name) (en :: rest) = some en := by
        simp [List.find?, hk]
      have hfind2 : List.find? (fun e => e.name == en.name) (en :: rest) = some en := by
        simp [List.find?]
      rw [cursosNames_cons, if_pos hk]
      simp only [hfind1, hfind2]
    · have hfind1 : List.find? (fun e => keepName e.name) (en :: rest)
          = List.find? (fun e => keepName e.name) rest := by
        simp [List.find?, hk]
      rw [cursosNames_cons, if_neg hk, hfind1]
      rcases hnames : cursosNames rest with _ | ⟨n0, tl⟩
      · rw [hnames] at ih
        exact ih
      · have hmem : n0 ∈ cursosNames rest := by
          rw [hnames]; exact List.mem_cons_self n0 tl
        have hkeep0 : keepName n0 = true := keep_of_mem_cursosNames hmem
        have hne : (en.name == n0) = false := by
          rw [beq_eq_false_iff_ne]
          intro heq
          rw [heq] at hk
          exact hk hkeep0
        have hfind2 : List.find? (fun e => e.name == n0) (en :: rest)
            = List.find? (fun e => e.name == n0) rest := by
          simp [List.find?, hne]
        simp only [hnames] at ih ⊢
        rw [hfind2]
        exact ih

/-! ### Path lemmas -/

theorem string_data_append (a b : String) : (a ++ b).data = a.data ++ b.data := rfl

theorem string_ext {a b : String} (h : a.data = b.data) : a = b := by
  cases a
  cases b
  exact congrArg String.mk h

/-- The path written by `save_cursos` and the path probed by
`already_downloaded` denote the same file: stripping the leading `./`
of the write path yields the probe path. -/
theorem normPath_save (f : String) :
    normPath ("./input" ++ ("/" ++ f)) = "input/" ++ f := by
  have hdata : ("./input" ++ ("/" ++ f)).data
      = '.' :: '/' :: 'i' :: 'n' :: 'p' :: 'u' :: 't' :: '/' :: f.data := rfl
  rw [normPath, hdata]
  exact string_ext rfl

theorem normPath_probe (f : String) :
    normPath ("input/" ++ f) = "input/" ++ f := by
  have hdata : ("input/" ++ f).data
      = 'i' :: 'n' :: 'p' :: 'u' :: 't' :: '/' :: f.data := rfl
  rw [normPath, hdata]
  rfl

/-! ### Pipeline lemmas -/

theorem save_cursos_files (c : Ces) (s : String) (w : World) :
    (c.save_cursos s w).files
      = (("input/" ++ ("cursos." ++ (toString c.year ++ ".csv")), s)) :: w.files := by
  simp only [Ces.save_cursos, fsWrite, normPath_save]

theorem save_cursos_fetchCount (c : Ces) (s : String) (w : World) :
    (c.save_cursos s w).fetchCount = w.fetchCount := rfl

theorem save_cursos_writeCount (c : Ces) (s : String) (w : World) :
    (c.save_cursos s w).writeCount = w.writeCount + 1 := rfl

/-- After a successful write, the existence probe on the deterministic
output path answers true: the write path and the probe path coincide after
OS path normalisation. -/
theorem already_downloaded_save (c : Ces) (s : String) (w : World) :
    c.already_downloaded (c.save_cursos s w) = true := by
  simp only [Ces.already_downloaded, fsExists, save_cursos_files, Ces.path,
    normPath_probe, List.any_cons]
  simp

theorem ensure_data_hit (md5Hex : List Byte → String)
    (net : Nat → Except Unit ZipBytes) (c : Ces) (w : World)
    (h : c.already_downloaded w = true) :
    c.ensure_data md5Hex net w = (.ok (), w) := by
  simp [Ces.ensure_data, h]

theorem ensure_data_miss (md5Hex : List Byte → String)
    (net : Nat → Except Unit ZipBytes) (c : Ces) (w : World)
    (h : c.already_downloaded w = false) :
    c.ensure_data md5Hex net w = c.download_data md5Hex net w := by
  simp [Ces.ensure_data, h]

theorem download_data_extract_error (md5Hex : List Byte → String)
    (net : Nat → Except Unit ZipBytes) (c : Ces) (w : World)
    (zb : ZipBytes) (err : ExtractError)
    (hnet : net c.year = .ok zb)
    (hex : c.extract_cursos_microdata md5Hex zb = .error err) :
    c.download_data md5Hex net w
      = (.error (.extractFailure err),
         { w with fetchCount := w.fetchCount + 1 }) := by
  unfold Ces.download_data Ces.zip
  rw [hnet]
  simp [hex]

theorem download_data_extract_ok (md5Hex : List Byte → String)
    (net : Nat → Except Unit ZipBytes) (c : Ces) (w : World)
    (zb : ZipBytes) (s : String)
    (hnet : net c.year = .ok zb)
    (hex : c.extract_cursos_microdata md5Hex zb = .ok s) :
    c.download_data md5Hex net w
      = (.ok (), c.save_cursos s { w with fetchCount := w.fetchCount + 1 }) := by
  unfold Ces.download_data Ces.zip
  rw [hnet]
  simp [hex]

theorem download_data_ok_shape (md5Hex : List Byte → String)
    (net : Nat → Except Unit ZipBytes) (c : Ces) (w r : World) (u : Unit)
    (h : c.download_data md5Hex net w = (.ok u, r)) :
    ∃ s : String,
      r = c.save_cursos s { w with fetchCount := w.fetchCount + 1 } := by
  unfold Ces.download_data Ces.zip at h
  rcases hnet : net c.year with e | zb
  · rw [hnet] at h
    simp at h
  · rw [hnet] at h
    rcases hex : c.extract_cursos_microdata md5Hex zb with err | s
    · simp [hex] at h
    · simp [hex] at h
      exact ⟨s, h.symm⟩

/-! ### Claim theorems -/

/-- C3: the encoding normaliser `iso_8559_1_to_utf8` is total over every
byte sequence (it is a plain function, with no failure mode), produces
exactly one code point per input byte, maps the i-th byte to the code
point with the same numeric value, and is injective — a lossless
transliteration. -/
theorem c3_normalizer_lossless :
    (∀ bytes : List Byte, (iso_8559_1_to_utf8 bytes).length = bytes.length) ∧
    (∀ (bytes : List Byte) (i : Nat), i < bytes.length →
      ((iso_8559_1_to_utf8 bytes).data[i]?).map Char.toNat
        = (bytes[i]?).map Fin.val) ∧
    Function.Injective iso_8559_1_to_utf8 := by
  refine ⟨?_, ?_, ?_⟩
  · intro bytes
    show (bytes.map (fun c => Char.ofNat c.val)).length = bytes.length
    rw [List.length_map]
  · intro bytes i _hi
    show ((bytes.map (fun c => Char.ofNat c.val))[i]?).map Char.toNat
        = (bytes[i]?).map Fin.val
    rw [List.getElem?_map]
    rcases hb : bytes[i]? with _ | b
    · rfl
    · show some (Char.ofNat b.val).toNat = some b.val
      rw [char_toNat_ofNat b.val b.isLt]
  · have hinj : Function.Injective (fun c : Byte => Char.ofNat c.val) := by
      intro a b hab
      have h := congrArg Char.toNat hab
      rw [char_toNat_ofNat a.val a.isLt, char_toNat_ofNat b.val b.isLt] at h
      exact Fin.ext h
    intro b1 b2 h
    have hdata : b1.map (fun c => Char.ofNat c.val)
        = b2.map (fun c => Char.ofNat c.val) := congrArg String.data h
    exact (List.map_injective_iff.mpr hinj) hdata

/-- C3 witness: the second conjunct evaluated on the concrete bytes
`[0x41, 0xE7]` at index 1. -/
theorem c3_normalizer_lossless_witness :
    ((1 : Nat) < ([(65 : Fin 256), (231 : Fin 256)] : List Byte).length) ∧
    ((iso_8559_1_to_utf8 [(65 : Fin 256), (231 : Fin 256)]).data[1]?).map Char.toNat
      = (([(65 : Fin 256), (231 : Fin 256)] : List Byte)[1]?).map Fin.val :=
  ⟨by decide,
   c3_normalizer_lossless.2.1 [(65 : Fin 256), (231 : Fin 256)] 1 (by decide)⟩

/-- C4: `Ces::new` rejects every year below 2009 at construction time with
the construction panic, and accepts every year at/after 2009, returning the
value object whose (immutable) `year` attribute is the given year; the
construction never touches a `World`, so it performs no I/O. -/
theorem c4_construction_validation (year : Nat) :
    (year < 2009 →
      Ces.new year
        = .error "Years before 2009 are not suppported in this software yet.") ∧
    (2009 ≤ year →
      Ces.new year = .ok { year := year } ∧ ({ year := year } : Ces).year = year) := by
  constructor
  · intro h
    simp [Ces.new, h]
  · intro h
    refine ⟨?_, rfl⟩
    simp [Ces.new, Nat.not_lt.mpr h]

/-- C4 witness: the claim evaluated at years 2008 (rejected) and 2015
(accepted). -/
theorem c4_construction_validation_witness :
    ((2008 : Nat) < 2009 ∧
      Ces.new 2008
        = .error "Years before 2009 are not suppported in this software yet.") ∧
    ((2009 : Nat) ≤ 2015 ∧ Ces.new 2015 = .ok { year := 2015 }) :=
  ⟨⟨by decide, (c4_construction_validation 2008).1 (by decide)⟩,
   ⟨by decide, ((c4_construction_validation 2015).2 (by decide)).1⟩⟩

/-- C8: the request URL is a deterministic function of the year alone, and
for year 2011 it is exactly the pinned URL of the spec's end-to-end
scenario. -/
theorem c8_url_deterministic :
    (∀ c1 c2 : Ces, c1.year = c2.year → c1.url = c2.url) ∧
    Ces.url { year := 2011 }
      = "https://download.inep.gov.br/microdados/microdados_censo_da_educacao_superior_2011.zip" := by
  constructor
  · intro c1 c2 h
    simp [Ces.url, h]
  · rfl

/-- C8 witness: the determinism conjunct applied to two handles for
2011. -/
theorem c8_url_deterministic_witness :
    Ces.url { year := 2011 } = Ces.url { year := 2011 } :=
  c8_url_deterministic.1 { year := 2011 } { year := 2011 } rfl

/-- C9: the output path is a pure function of the table kind and the year
(equal years give equal paths, with no other input), and it is injective in
the year: equal paths force equal years, so distinct years always get
distinct output paths. -/
theorem c9_path_pure_injective :
    (∀ (c1 c2 : Ces) (k1 k2 : Microdata), c1.year = c2.year →
      c1.path k1 = c2.path k2) ∧
    (∀ (c1 c2 : Ces) (k1 k2 : Microdata), c1.path k1 = c2.path k2 →
      c1.year = c2.year) := by
  constructor
  · rintro ⟨y1⟩ ⟨y2⟩ ⟨⟩ ⟨⟩ h
    simp only at h
    simp [Ces.path, h]
  · rintro ⟨y1⟩ ⟨y2⟩ ⟨⟩ ⟨⟩ h
    simp only [Ces.path] at h
    have hsplit : ∀ t : String,
        ("input/" ++ ("cursos." ++ (t ++ ".csv"))).data
          = "input/".data ++ ("cursos.".data ++ (t.data ++ ".csv".data)) :=
      fun _ => rfl
    have hd := congrArg String.data h
    rw [hsplit, hsplit] at hd
    have hd2 := List.append_cancel_left hd
    have hd3 := List.append_cancel_left hd2
    have hd4 := List.append_cancel_right hd3
    exact natToString_inj (string_ext hd4)

/-- C9 witness: both conjuncts applied at year 2011. -/
theorem c9_path_pure_injective_witness :
    ({ year := 2011 } : Ces).path Microdata.Cursos
        = ({ year := 2011 } : Ces).path Microdata.Cursos ∧
    ({ year := 2011 } : Ces).year = ({ year := 2011 } : Ces).year :=
  ⟨c9_path_pure_injective.1 { year := 2011 } { year := 2011 }
      Microdata.Cursos Microdata.Cursos rfl,
   c9_path_pure_injective.2 { year := 2011 } { year := 2011 }
      Microdata.Cursos Microdata.Cursos rfl⟩

/-- Lowercase hexadecimal digit. -/
def isLowerHexChar (c : Char) : Bool :=
  (48 ≤ c.toNat && c.toNat ≤ 57) || (97 ≤ c.toNat && c.toNat ≤ 102)

/-- A 32-character lowercase-hexadecimal string. -/
def isLowerHex32 (s : String) : Bool :=
  s.length == 32 && s.data.all isLowerHexChar

/-- Outside 2009..2021 the digest table is empty: every branch of the
year dispatch contradicts the range hypothesis, so the final `none` is
reached. -/
theorem original_md5_none_outside :
    ∀ y : Nat, y < 2009 ∨ 2022 ≤ y →
      Microdata.original_md5 Microdata.Cursos y = none := by
  intro y hy
  have hne : ∀ k : Nat, 2009 ≤ k ∧ k ≤ 2021 → y ≠ k := by
    rintro k ⟨hk1, hk2⟩
    omega
  simp only [Microdata.original_md5]
  rw [if_neg (hne 2009 (by omega)), if_neg (hne 2010 (by omega)),
    if_neg (hne 2011 (by omega)), if_neg (hne 2012 (by omega)),
    if_neg (hne 2013 (by omega)), if_neg (hne 2014 (by omega)),
    if_neg (hne 2015 (by omega)), if_neg (hne 2016 (by omega)),
    if_neg (hne 2017 (by omega)), if_neg (hne 2018 (by omega)),
    if_neg (hne 2019 (by omega)), if_neg (hne 2020 (by omega)),
    if_neg (hne 2021 (by omega))]

/-- C10: the static digest table pins a 32-character lowercase-hex digest
for exactly the years 2009..2021 (`none` for every other year, including
every year ≥ 2022, for which construction nevertheless succeeds), and
`Ces::all` as well as the `ensure_all_data` loop enumerate exactly the
years 2009..2021 — so every enumerated year is pinned. -/
theorem c10_digest_table_coverage :
    (∀ y : Nat, 2009 ≤ y → y ≤ 2021 →
      ∃ s, Microdata.original_md5 Microdata.Cursos y = some s
        ∧ isLowerHex32 s = true) ∧
    (∀ y : Nat, y < 2009 ∨ 2022 ≤ y →
      Microdata.original_md5 Microdata.Cursos y = none) ∧
    (∀ y : Nat, 2022 ≤ y → Ces.new y = .ok { year := y }) ∧
    Ces.all = .ok ((List.range' 2009 13).map Ces.mk) ∧
    List.range' 2009 13
      = [2009, 2010, 2011, 2012, 2013, 2014, 2015, 2016, 2017, 2018,
         2019, 2020, 2021] ∧
    (∀ (md5Hex : List Byte → String) (net : Nat → Except Unit ZipBytes)
        (w : World),
      Ces.ensure_all_data md5Hex net w
        = ensure_all_data_over md5Hex net (List.range' 2009 13) w) := by
  refine ⟨?_, original_md5_none_outside, ?_, ?_, ?_, ?_⟩
  · intro y h1 h2
    interval_cases y <;> exact ⟨_, rfl, by decide⟩
  · intro y hy
    simp [Ces.new, Nat.not_lt.mpr (by omega : 2009 ≤ y)]
  · rfl
  · decide
  · intro md5Hex net w
    rfl

/-- C10 witness: the quantified conjuncts evaluated at years 2011 (pinned)
and 2022 (absent but constructible). -/
theorem c10_digest_table_coverage_witness :
    ((2009 : Nat) ≤ 2011 ∧ (2011 : Nat) ≤ 2021 ∧
      ∃ s, Microdata.original_md5 Microdata.Cursos 2011 = some s
        ∧ isLowerHex32 s = true) ∧
    Microdata.original_md5 Microdata.Cursos 2022 = none ∧
    Ces.new 2022 = .ok { year := 2022 } :=
  ⟨⟨by decide, by decide,
    c10_digest_table_coverage.1 2011 (by decide) (by decide)⟩,
   c10_digest_table_coverage.2.1 2022 (Or.inr (by decide)),
   c10_digest_table_coverage.2.2.1 2022 (by decide)⟩

/-- Concrete archive entry used by the closed-instance theorems: its name
carries both the family marker and the table token, its content is the
single byte `0x41`. -/
def sampleEntry : ZipEntry :=
  { name := "MICRODADOS_CADASTRO_CURSOS_2011.csv", bytes := [(65 : Fin 256)] }

/-- Mock digest function that renders every byte sequence as the pinned
2011 digest. -/
def md5Mock2011 : List Byte → String :=
  fun _ => "f626dd6d17e8f31f78ddf90f680ace48"

/-- Mock digest function that renders every byte sequence as the pinned
2010 digest. -/
def md5Mock2010 : List Byte → String :=
  fun _ => "8ea106ef7dc41a27a43b9f246cfd3ffd"

/-- Mock origin server: every year's archive holds exactly
`sampleEntry`. -/
def netMock : Nat → Except Unit ZipBytes :=
  fun _ => .ok (.archive [sampleEntry])

/-- The empty initial world: no files, no fetches, no writes. -/
def w0 : World :=
  { files := [], fetchCount := 0, writeCount := 0 }

/-- C5: an entry is kept iff its name contains both the family marker and
the table token (case-sensitive substring tests — the lowercase variant of
a matching name is rejected); with zero matching entries the selector
bails with the not-found error; otherwise the first matching entry in
enumeration order is selected, and its exact bytes are the ones digested
and (on digest success) returned in normalised form. -/
theorem c5_selector_filters_first_match :
    (∀ n : String, keepName n
        = (containsStr n MICRODATA_TAG
            && containsStr n (Microdata.name Microdata.Cursos))) ∧
    keepName "microdados_cadastro_cursos_2011.csv" = false ∧
    keepName "MICRODADOS_CADASTRO_CURSOS_2011.csv" = true ∧
    (∀ (md5Hex : List Byte → String) (c : Ces) (entries : List ZipEntry),
      entries.find? (fun en => keepName en.name) = none →
      c.extract_cursos_microdata md5Hex (.archive entries)
        = .error .notFound) ∧
    (∀ (md5Hex : List Byte → String) (c : Ces) (entries : List ZipEntry)
        (e : ZipEntry) (d : String),
      entries.find? (fun en => keepName en.name) = some e →
      Microdata.original_md5 Microdata.Cursos c.year = some d →
      md5Hex e.bytes = d →
      c.extract_cursos_microdata md5Hex (.archive entries)
        = .ok (iso_8559_1_to_utf8 e.bytes)) := by
  refine ⟨fun n => rfl, by decide, by decide, ?_, ?_⟩
  · intro md5Hex c entries h
    rw [extract_cursos_eq, h]
  · intro md5Hex c entries e d hfind hd hmd5
    rw [extract_cursos_eq, hfind, hd]
    simp [hmd5]

/-- C5 witness: the selector conjuncts evaluated on a one-entry archive
for 2011 (match) and on the empty archive (no match). -/
theorem c5_selector_filters_first_match_witness :
    ([sampleEntry].find? (fun en => keepName en.name) = some sampleEntry ∧
      Microdata.original_md5 Microdata.Cursos 2011
        = some "f626dd6d17e8f31f78ddf90f680ace48" ∧
      md5Mock2011 sampleEntry.bytes = "f626dd6d17e8f31f78ddf90f680ace48") ∧
    Ces.extract_cursos_microdata md5Mock2011 { year := 2011 }
        (.archive [sampleEntry])
      = .ok (iso_8559_1_to_utf8 sampleEntry.bytes) ∧
    (([] : List ZipEntry).find? (fun en => keepName en.name) = none ∧
      Ces.extract_cursos_microdata md5Mock2011 { year := 2011 } (.archive [])
        = .error .notFound) :=
  ⟨⟨by decide, by decide, by decide⟩,
   c5_selector_filters_first_match.2.2.2.2 md5Mock2011 { year := 2011 }
     [sampleEntry] sampleEntry "f626dd6d17e8f31f78ddf90f680ace48"
     (by decide) (by decide) (by decide),
   ⟨by decide,
    c5_selector_filters_first_match.2.2.2.1 md5Mock2011 { year := 2011 } []
      (by decide)⟩⟩

/-- C1: when the digest of the selected entry's raw (untransformed) bytes
differs from the pinned digest for the year, extraction bails with the
wrong-md5 error — so no normalised text is ever produced — and
`ensure_data` on a world without the output file surfaces that failure
having fetched once but written nothing: the file store and the write
counter are unchanged. -/
theorem c1_digest_mismatch_blocks_pipeline (md5Hex : List Byte → String)
    (c : Ces) (entries : List ZipEntry) (e : ZipEntry) (d : String)
    (hfind : entries.find? (fun en => keepName en.name) = some e)
    (hd : Microdata.original_md5 Microdata.Cursos c.year = some d)
    (hmis : md5Hex e.bytes ≠ d) :
    c.extract_cursos_microdata md5Hex (.archive entries)
      = .error (.wrongMd5 c.year) ∧
    (∀ s, c.extract_cursos_microdata md5Hex (.archive entries) ≠ .ok s) ∧
    (∀ (net : Nat → Except Unit ZipBytes) (w : World),
      net c.year = .ok (.archive entries) →
      c.already_downloaded w = false →
      (c.ensure_data md5Hex net w).1
        = .error (.extractFailure (.wrongMd5 c.year)) ∧
      (c.ensure_data md5Hex net w).2.files = w.files ∧
      (c.ensure_data md5Hex net w).2.writeCount = w.writeCount) := by
  have hext : c.extract_cursos_microdata md5Hex (.archive entries)
      = .error (.wrongMd5 c.year) := by
    rw [extract_cursos_eq, hfind, hd]
    simp [hmis]
  refine ⟨hext, ?_, ?_⟩
  · intro s
    rw [hext]
    exact fun hcontra => Except.noConfusion hcontra
  · intro net w hnet hnd
    have hdl := download_data_extract_error md5Hex net c w _ _ hnet hext
    rw [ensure_data_miss md5Hex net c w hnd, hdl]
    exact ⟨rfl, rfl, rfl⟩

/-- C1 witness: year 2009 whose pinned digest differs from the mock
digest of the sample entry. -/
theorem c1_digest_mismatch_blocks_pipeline_witness :
    Ces.extract_cursos_microdata md5Mock2011 { year := 2009 }
        (.archive [sampleEntry])
      = .error (.wrongMd5 2009) ∧
    (Ces.ensure_data md5Mock2011 netMock { year := 2009 } w0).1
        = .error (.extractFailure (.wrongMd5 2009)) ∧
    (Ces.ensure_data md5Mock2011 netMock { year := 2009 } w0).2.files
        = w0.files :=
  have h := c1_digest_mismatch_blocks_pipeline md5Mock2011 { year := 2009 }
    [sampleEntry] sampleEntry "677421fb8ad9442370175cbadae05b77"
    (by decide) (by decide) (by decide)
  ⟨h.1, (h.2.2 netMock w0 rfl (by decide)).1,
   (h.2.2 netMock w0 rfl (by decide)).2.1⟩

/-- C6: for a year whose digest-table entry is the explicit `None`,
verification can never pass silently: as soon as an entry is selected, the
`.unwrap()` on the missing reference digest fails the extraction — no text
is produced — and `ensure_data` on a world without the output file
surfaces the failure and writes nothing. -/
theorem c6_missing_digest_never_silent (md5Hex : List Byte → String)
    (c : Ces) (entries : List ZipEntry) (e : ZipEntry)
    (_hmin : 2009 ≤ c.year)
    (hnone : Microdata.original_md5 Microdata.Cursos c.year = none)
    (hfind : entries.find? (fun en => keepName en.name) = some e) :
    c.extract_cursos_microdata md5Hex (.archive entries)
      = .error .noDigestUnwrap ∧
    (∀ s, c.extract_cursos_microdata md5Hex (.archive entries) ≠ .ok s) ∧
    (∀ (net : Nat → Except Unit ZipBytes) (w : World),
      net c.year = .ok (.archive entries) →
      c.already_downloaded w = false →
      (c.ensure_data md5Hex net w).1
        = .error (.extractFailure .noDigestUnwrap) ∧
      (c.ensure_data md5Hex net w).2.files = w.files ∧
      (c.ensure_data md5Hex net w).2.writeCount = w.writeCount) := by
  have hext : c.extract_cursos_microdata md5Hex (.archive entries)
      = .error .noDigestUnwrap := by
    rw [extract_cursos_eq, hfind, hnone]
  refine ⟨hext, ?_, ?_⟩
  · intro s
    rw [hext]
    exact fun hcontra => Except.noConfusion hcontra
  · intro net w hnet hnd
    have hdl := download_data_extract_error md5Hex net c w _ _ hnet hext
    rw [ensure_data_miss md5Hex net c w hnd, hdl]
    exact ⟨rfl, rfl, rfl⟩

/-- C6 witness: year 2022 — constructible, enumerated by no loop, and
absent from the digest table. -/
theorem c6_missing_digest_never_silent_witness :
    Ces.extract_cursos_microdata md5Mock2011 { year := 2022 }
        (.archive [sampleEntry])
      = .error .noDigestUnwrap ∧
    (Ces.ensure_data md5Mock2011 netMock { year := 2022 } w0).1
        = .error (.extractFailure .noDigestUnwrap) :=
  have h := c6_missing_digest_never_silent md5Mock2011 { year := 2022 }
    [sampleEntry] sampleEntry (by decide) (by decide) (by decide)
  ⟨h.1, (h.2.2 netMock w0 rfl (by decide)).1⟩

/-- C7: when the output file already exists at the deterministic path,
`ensure_data` returns success immediately with the world untouched — zero
network fetches, zero writes; when it is absent and the run succeeds, the
run performed exactly one fetch and one write, the output now exists, and
a second run is a complete no-op on the resulting world (zero further
network calls).  Together the two runs perform exactly one fetch and one
write. -/
theorem c7_existence_short_circuit_idempotent (md5Hex : List Byte → String)
    (net : Nat → Except Unit ZipBytes) (c : Ces) (w : World) :
    (c.already_downloaded w = true →
      c.ensure_data md5Hex net w = (.ok (), w)) ∧
    (c.already_downloaded w = false →
      ∀ w' : World, c.ensure_data md5Hex net w = (.ok (), w') →
        w'.fetchCount = w.fetchCount + 1 ∧
        w'.writeCount = w.writeCount + 1 ∧
        c.already_downloaded w' = true ∧
        c.ensure_data md5Hex net w' = (.ok (), w')) := by
  constructor
  · exact ensure_data_hit md5Hex net c w
  · intro hnd w' hrun
    rw [ensure_data_miss md5Hex net c w hnd] at hrun
    obtain ⟨s, rfl⟩ := download_data_ok_shape md5Hex net c w w' () hrun
    refine ⟨rfl, rfl, already_downloaded_save c s _, ?_⟩
    exact ensure_data_hit md5Hex net c _ (already_downloaded_save c s _)

/-- World reached by one successful 2011 run from the empty world. -/
def w1 : World :=
  Ces.save_cursos { year := 2011 } (iso_8559_1_to_utf8 [(65 : Fin 256)])
    { w0 with fetchCount := 1 }

/-- C7 witness: a successful 2011 run against the mock server from the
empty world does exactly one fetch and one write, after which a second run
is a no-op. -/
theorem c7_existence_short_circuit_idempotent_witness :
    Ces.already_downloaded { year := 2011 } w0 = false ∧
    (w1.fetchCount = w0.fetchCount + 1 ∧
      w1.writeCount = w0.writeCount + 1 ∧
      Ces.already_downloaded { year := 2011 } w1 = true ∧
      Ces.ensure_data md5Mock2011 netMock { year := 2011 } w1
        = (.ok (), w1)) :=
  ⟨by decide,
   (c7_existence_short_circuit_idempotent md5Mock2011 netMock
       { year := 2011 } w0).2 (by decide) w1 rfl⟩

/-- C2 (divergence exhibit): with years 2009 and 2010, where 2009's
fixture digest mismatches and 2010's matches, the modelled orchestrator
does not produce a per-year report: the `.unwrap()` in its join loop
re-raises the 2009 task's panic, the orchestrator aborts, and in this
admissible schedule 2010's pipeline never runs — the final world holds no
file at all (2010's output is not persisted) and only 2009's fetch
happened. -/
theorem c2_fleet_aborts_on_first_failure :
    ensure_all_data_over md5Mock2010 netMock [2009, 2010] w0
      = (.panicked 2009 (.pipelineFailure (.extractFailure (.wrongMd5 2009))),
         { files := [], fetchCount := 1, writeCount := 0 }) := by
  decide
